import Mathlib

/-!
Verification of the cloudflare-ddns reconciler (`src/main.rs`) against its
natural-language specification.

The development shallowly embeds the program: pure record types mirror the
Rust structs, the HTTP layer is modelled by an oracle answering each outbound
call, and the reconciliation loop of `main` becomes an explicit trace-building
function.  The DNS provider itself is not part of the repository; its
behaviour (listing, creating and content-updating records in a zone) is
modelled from the specification, §4.2.
-/

namespace Ddns

/-- `RecordConfig` from `src/main.rs` lines 17-22: one declared record, with
the YAML field `type` renamed to `record_type`. -/
structure RecordConfig where
  name : String
  record_type : String
deriving DecidableEq, Repr

/-- `CloudflareConfig` from `src/main.rs` lines 11-15. -/
structure CloudflareConfig where
  api_token : String
  zone_id : String
deriving DecidableEq, Repr

/-- `Config` from `src/main.rs` lines 5-9: the top-level configuration
document, with keys `cloudflare` and `records`. -/
structure Config where
  cloudflare : CloudflareConfig
  records : List RecordConfig
deriving DecidableEq, Repr

/-- `DnsRecord` from `src/main.rs` lines 38-47.  `id`, `ttl` and `proxied`
are `Option`s exactly as in the source. -/
structure DnsRecord where
  id : Option String
  name : String
  record_type : String
  content : String
  ttl : Option Nat
  proxied : Option Bool
deriving DecidableEq, Repr

/-- `ApiError` from `src/main.rs` lines 49-53. -/
structure ApiError where
  code : Nat
  message : String
deriving DecidableEq, Repr

/-- `CloudflareResponse` from `src/main.rs` lines 24-29: the decoded envelope
of a list reply. -/
structure CloudflareResponse where
  success : Bool
  result : Option (List DnsRecord)
  errors : Option (List ApiError)
deriving DecidableEq, Repr

/-- `SingleRecordResponse` from `src/main.rs` lines 31-36: the decoded
envelope of a create or update reply. -/
structure SingleRecordResponse where
  success : Bool
  result : Option DnsRecord
  errors : Option (List ApiError)
deriving DecidableEq, Repr

/-- The failure kinds a run can surface.  Each constructor corresponds to one
`anyhow::bail!` / `.context` site in `src/main.rs`, except `panicMissingId`,
which models the `Option::unwrap` panic at line 225 (`existing.id.as_ref().unwrap()`
on a record listed without an id): the process aborts rather than returning a
recoverable error value. -/
inductive RunError where
  | unsupportedFamily (ip_type : String)
  | probeTransport
  | emptyResponse
  | apiErrors (errors : List ApiError)
  | noResult
  | panicMissingId
deriving DecidableEq, Repr

/-- Envelope handling of `get_dns_records`, `src/main.rs` lines 88-96:
`if !success { if let Some(errors) { bail } }` and then
`Ok(result.unwrap_or_default())`.  Note that a reply with `success == false`
but an absent `errors` field falls through to the success path. -/
def get_dns_records_decode (r : CloudflareResponse) : Except RunError (List DnsRecord) :=
  match r.success with
  | true => Except.ok (r.result.getD [])
  | false =>
    match r.errors with
    | some errors => Except.error (RunError.apiErrors errors)
    | none => Except.ok (r.result.getD [])

/-- Envelope handling shared verbatim by `create_dns_record` (lines 123-131)
and `update_dns_record` (lines 158-166): bail when `success == false` and
`errors` is present, then `result.context("No result returned")`. -/
def mutate_dns_record_decode (r : SingleRecordResponse) : Except RunError DnsRecord :=
  match r.success with
  | true =>
    match r.result with
    | some res => Except.ok res
    | none => Except.error RunError.noResult
  | false =>
    match r.errors with
    | some errors => Except.error (RunError.apiErrors errors)
    | none =>
      match r.result with
      | some res => Except.ok res
      | none => Except.error RunError.noResult

/-- A minimal JSON value type, enough for the scalar fields of a
`DnsRecord` request body. -/
inductive Json where
  | null
  | str (s : String)
  | num (n : Nat)
  | bool (b : Bool)
deriving DecidableEq, Repr

/-- serde_json serialization of `DnsRecord` under `#[derive(Serialize)]`
(`src/main.rs` lines 38-47): fields appear in declaration order, the field
`record_type` is renamed to `type`, and an `Option` field that is `None` is
serialized as JSON `null` (the struct carries no `skip_serializing_if`
attribute, so no field is omitted). -/
def serializeDnsRecord (r : DnsRecord) : List (String × Json) :=
  [("id", match r.id with | some s => Json.str s | none => Json.null),
   ("name", Json.str r.name),
   ("type", Json.str r.record_type),
   ("content", Json.str r.content),
   ("ttl", match r.ttl with | some n => Json.num n | none => Json.null),
   ("proxied", match r.proxied with | some b => Json.bool b | none => Json.null)]

/-- The request-body record built by `create_dns_record`, `src/main.rs`
lines 105-112. -/
def create_request_body (name record_type content : String) : DnsRecord :=
  { id := none, name := name, record_type := record_type, content := content,
    ttl := some 1, proxied := some false }

/-- The request-body record built by `update_dns_record`, `src/main.rs`
lines 140-147 (textually identical to the create body). -/
def update_request_body (name record_type content : String) : DnsRecord :=
  { id := none, name := name, record_type := record_type, content := content,
    ttl := some 1, proxied := some false }

/-- Rust `char::is_whitespace`: the Unicode `White_Space` property. -/
def rustIsWhitespace (c : Char) : Bool :=
  (0x09 ≤ c.toNat && c.toNat ≤ 0x0d) || c.toNat == 0x20 || c.toNat == 0x85 ||
  c.toNat == 0xa0 || c.toNat == 0x1680 ||
  (0x2000 ≤ c.toNat && c.toNat ≤ 0x200a) || c.toNat == 0x2028 ||
  c.toNat == 0x2029 || c.toNat == 0x202f || c.toNat == 0x205f ||
  c.toNat == 0x3000

/-- Rust `str::trim`: drop leading and trailing `White_Space` characters. -/
def rustTrim (s : String) : String :=
  String.mk (((s.data.dropWhile rustIsWhitespace).reverse.dropWhile rustIsWhitespace).reverse)

/-- The endpoint selection of `get_public_ip`, `src/main.rs` lines 173-177:
`"A"` and `"AAAA"` map to their echo services, any other record type bails
with `Unsupported record type` before any request is built. -/
def ipUrl (ip_type : String) : Option String :=
  if ip_type = "A" then some "https://ipinfo.io/ip"
  else if ip_type = "AAAA" then some "https://ifconfig.me/ip"
  else none

/-- One outbound HTTP call of a run, as recorded in the trace. -/
inductive Call where
  | probe (url : String)
  | list (name record_type : String)
  | create (name record_type content : String)
  | update (id name record_type content : String)
deriving DecidableEq, Repr

/-- `get_public_ip`, `src/main.rs` lines 170-191, with the HTTP transport
modelled by `fetch : url → Option body` (`none` is a transport failure).
Returns the probe calls issued together with the result: unsupported families
fail before any request; otherwise the body is trimmed and an empty trimmed
body is an error. -/
def get_public_ip (fetch : String → Option String) (ip_type : String) :
    List Call × Except RunError String :=
  match ipUrl ip_type with
  | none => ([], Except.error (RunError.unsupportedFamily ip_type))
  | some url =>
    match fetch url with
    | none => ([Call.probe url], Except.error RunError.probeTransport)
    | some body =>
      if rustTrim body = "" then ([Call.probe url], Except.error RunError.emptyResponse)
      else ([Call.probe url], Except.ok (rustTrim body))

/-- The environment of one run: every outbound call is answered as a function
of the trace of calls already issued, so answers may depend on earlier
mutations and may fail arbitrarily. -/
structure Oracle where
  fetch : List Call → String → Option String
  listR : List Call → String → String → CloudflareResponse
  createR : List Call → String → String → String → SingleRecordResponse
  updateR : List Call → String → String → String → String → SingleRecordResponse

/-- The decision and mutation part of the loop body of `main`, `src/main.rs`
lines 219-242: look at `existing_records.first()`; if absent, create; if its
`content` equals the observed IP, no-op; otherwise update using
`existing.id.as_ref().unwrap()` — a missing id on this path is a panic. -/
def applyDecision (ora : Oracle) (tr2 : List Call) (spec : RecordConfig)
    (current_ip : String) (existing : List DnsRecord) :
    List Call × Except RunError Unit :=
  match existing.head? with
  | some ex =>
    if ex.content ≠ current_ip then
      match ex.id with
      | some rid =>
        match mutate_dns_record_decode
            (ora.updateR tr2 rid spec.name spec.record_type current_ip) with
        | Except.ok _ =>
          (tr2 ++ [Call.update rid spec.name spec.record_type current_ip], Except.ok ())
        | Except.error e =>
          (tr2 ++ [Call.update rid spec.name spec.record_type current_ip], Except.error e)
      | none => (tr2, Except.error RunError.panicMissingId)
    else (tr2, Except.ok ())
  | none =>
    match mutate_dns_record_decode
        (ora.createR tr2 spec.name spec.record_type current_ip) with
    | Except.ok _ =>
      (tr2 ++ [Call.create spec.name spec.record_type current_ip], Except.ok ())
    | Except.error e =>
      (tr2 ++ [Call.create spec.name spec.record_type current_ip], Except.error e)

/-- One iteration of the loop of `main`, `src/main.rs` lines 207-243: probe
the public IP for the spec's type, list the existing records, then decide.
The returned list is the full trace (input trace plus the calls issued by
this iteration). -/
def processSpec (ora : Oracle) (tr : List Call) (spec : RecordConfig) :
    List Call × Except RunError Unit :=
  match get_public_ip (ora.fetch tr) spec.record_type with
  | (calls, Except.error e) => (tr ++ calls, Except.error e)
  | (calls, Except.ok current_ip) =>
    match get_dns_records_decode
        (ora.listR (tr ++ calls) spec.name spec.record_type) with
    | Except.error e =>
      (tr ++ calls ++ [Call.list spec.name spec.record_type], Except.error e)
    | Except.ok existing =>
      applyDecision ora (tr ++ calls ++ [Call.list spec.name spec.record_type])
        spec current_ip existing

/-- The loop of `main`, `src/main.rs` lines 207-243: process the declared
records in order; the `?` operator aborts the whole run on the first
failure. -/
def runSpecs (ora : Oracle) : List Call → List RecordConfig → List Call × Except RunError Unit
  | tr, [] => (tr, Except.ok ())
  | tr, spec :: rest =>
    match processSpec ora tr spec with
    | (tr1, Except.ok _) => runSpecs ora tr1 rest
    | (tr1, Except.error e) => (tr1, Except.error e)

/-- A whole reconciliation run over the declared records, starting from the
empty trace. -/
def run (ora : Oracle) (specs : List RecordConfig) : List Call × Except RunError Unit :=
  runSpecs ora [] specs

/-! ### The provider zone, modelled from the specification

The DNS provider is an external collaborator, not code of this repository.
Its zone state is modelled from the specification: §2 ("list records matching
(name, type); create a record; update a record's content by id") and §4.2. -/

/-- Modelled from the spec: the provider's zone — the stored records plus a
counter from which fresh record ids are assigned on creation. -/
structure PState where
  records : List DnsRecord
  nextId : Nat
deriving Repr

/-- The opaque id the modelled provider assigns to the `n`-th created
record. -/
def mkRecordId (n : Nat) : String := String.mk (List.replicate (n + 1) 'r')

/-- Modelled from the spec, §4.2: `list_records(name, type)` returns the
stored records matching the query, in stored order. -/
def list_records (s : PState) (name record_type : String) : List DnsRecord :=
  s.records.filter (fun r => r.name == name && r.record_type == record_type)

/-- Modelled from the spec, §4.2: `create_record` stores a new record with a
fresh provider-assigned id and returns it. -/
def create_record (s : PState) (name record_type content : String) :
    PState × DnsRecord :=
  let created : DnsRecord :=
    { id := some (mkRecordId s.nextId), name := name, record_type := record_type,
      content := content, ttl := some 1, proxied := some false }
  ({ records := s.records ++ [created], nextId := s.nextId + 1 }, created)

/-- Modelled from the spec, §2 and §4.2: `update_record` replaces the
`content` of the record carrying the given id, in place. -/
def update_record (s : PState) (rid content : String) : PState :=
  { s with records :=
      s.records.map (fun r => if r.id == some rid then { r with content := content } else r) }

/-- The zone-state effect of one recorded call: probes and lists leave the
zone unchanged, creates and updates act as modelled above. -/
def applyCall (s : PState) : Call → PState
  | Call.create name record_type content => (create_record s name record_type content).1
  | Call.update rid _ _ content => update_record s rid content
  | _ => s

/-- Replay a trace of calls against a zone state. -/
def replay (s : PState) : List Call → PState
  | [] => s
  | c :: cs => replay (applyCall s c) cs

/-- The honest environment: the probe transport answers from `fetch`
independently of history, and the provider answers every call successfully
from the zone state obtained by replaying the history over `s0`. -/
def honest (s0 : PState) (fetch : String → Option String) : Oracle where
  fetch := fun _ url => fetch url
  listR := fun tr name record_type =>
    { success := true, result := some (list_records (replay s0 tr) name record_type),
      errors := none }
  createR := fun tr name record_type content =>
    { success := true, result := some (create_record (replay s0 tr) name record_type content).2,
      errors := none }
  updateR := fun _ rid name record_type content =>
    { success := true,
      result := some { id := some rid, name := name, record_type := record_type,
                       content := content, ttl := some 1, proxied := some false },
      errors := none }

/-- The ids present in the zone. -/
def recordIds (s : PState) : List String := s.records.filterMap (fun r => r.id)

/-- No stored record already uses an id the modelled provider may assign
later (an all-`r` id at least `nextId + 1` long). -/
def freshIds (s : PState) : Bool :=
  s.records.all fun r =>
    match r.id with
    | none => true
    | some i => !(i.data.all (fun c => c == 'r')) || decide (i.length < s.nextId + 1)

/-- A well-formed zone: record ids are pairwise distinct and future
provider-assigned ids are fresh. -/
def WF (s : PState) : Prop := (recordIds s).Nodup ∧ freshIds s = true

/-- Whether a call is a provider mutation (create or update). -/
def isMutating : Call → Bool
  | Call.create _ _ _ => true
  | Call.update _ _ _ _ => true
  | _ => false

/-- Whether a call is an update. -/
def isUpdate : Call → Bool
  | Call.update _ _ _ _ => true
  | _ => false

/-- Whether a call is a create. -/
def isCreate : Call → Bool
  | Call.create _ _ _ => true
  | _ => false

/-- Number of mutating calls in a trace. -/
def mutCount (tr : List Call) : Nat := (tr.filter isMutating).length

/-- Number of update calls in a trace. -/
def updateCount (tr : List Call) : Nat := (tr.filter isUpdate).length

/-- Number of create calls in a trace. -/
def createCount (tr : List Call) : Nat := (tr.filter isCreate).length

/-- The spec's record is reconciled in zone `s` under probe transport
`fetch`: the probe succeeds with a non-empty trimmed body and the first
listed record's content equals it. -/
def keyGoodB (s : PState) (fetch : String → Option String) (spec : RecordConfig) : Bool :=
  match ipUrl spec.record_type with
  | none => false
  | some url =>
    match fetch url with
    | none => false
    | some body =>
      !(rustTrim body == "") &&
      match (list_records s spec.name spec.record_type).head? with
      | some ex => ex.content == rustTrim body
      | none => false

/-- The spec's record is due for an update in zone `s` under probe transport
`fetch`: the probe succeeds with a non-empty trimmed body, and the first
listed record exists, carries an id, and stores a different content. -/
def specReadyB (s : PState) (fetch : String → Option String) (spec : RecordConfig) : Bool :=
  match ipUrl spec.record_type with
  | none => false
  | some url =>
    match fetch url with
    | none => false
    | some body =>
      !(rustTrim body == "") &&
      match (list_records s spec.name spec.record_type).head? with
      | some ex => ex.id.isSome && !(ex.content == rustTrim body)
      | none => false

/-! ### Configuration loading

`main` (`src/main.rs` lines 196-199) reads `config.yml` and deserializes it
with `serde_yaml` into `Config`.  The YAML documents relevant here are
mappings, sequences and string scalars; serde's derived deserializer ignores
unknown keys and reports the first missing required field. -/

/-- A YAML document, restricted to the shapes `Config` can mention. -/
inductive Yaml where
  | str (s : String)
  | seq (items : List Yaml)
  | map (entries : List (String × Yaml))

/-- The ways deserialization of the configuration can fail. -/
inductive ParseError where
  | missingField (name : String)
  | typeError
deriving DecidableEq, Repr

/-- Look a key up in a YAML mapping (first occurrence). -/
def getField (entries : List (String × Yaml)) (k : String) : Option Yaml :=
  (entries.find? (fun e => e.1 == k)).map (fun e => e.2)

/-- A required field of a struct: absent keys are a `missing field`
error. -/
def reqField (entries : List (String × Yaml)) (k : String) : Except ParseError Yaml :=
  match getField entries k with
  | some y => Except.ok y
  | none => Except.error (ParseError.missingField k)

/-- Deserialize a string scalar. -/
def asString (y : Yaml) : Except ParseError String :=
  match y with
  | Yaml.str s => Except.ok s
  | _ => Except.error ParseError.typeError

/-- serde deserialization of `CloudflareConfig` (`src/main.rs` lines 11-15):
required string fields `api_token` and `zone_id`, unknown keys ignored. -/
def parseCloudflareConfig (y : Yaml) : Except ParseError CloudflareConfig :=
  match y with
  | Yaml.map entries =>
    (reqField entries "api_token").bind fun t =>
    (asString t).bind fun tok =>
    (reqField entries "zone_id").bind fun z =>
    (asString z).map fun zid => { api_token := tok, zone_id := zid }
  | _ => Except.error ParseError.typeError

/-- serde deserialization of `RecordConfig` (`src/main.rs` lines 17-22):
required string fields `name` and `type` (renamed to `record_type`), unknown
keys ignored. -/
def parseRecordConfig (y : Yaml) : Except ParseError RecordConfig :=
  match y with
  | Yaml.map entries =>
    (reqField entries "name").bind fun n =>
    (asString n).bind fun nm =>
    (reqField entries "type").bind fun t =>
    (asString t).map fun ty => { name := nm, record_type := ty }
  | _ => Except.error ParseError.typeError

/-- Deserialize the `records` sequence element-wise. -/
def parseRecordList (ys : List Yaml) : Except ParseError (List RecordConfig) :=
  match ys with
  | [] => Except.ok []
  | y :: rest =>
    (parseRecordConfig y).bind fun r =>
    (parseRecordList rest).map fun rs => r :: rs

/-- serde deserialization of `Config` (`src/main.rs` lines 5-9): the
top-level mapping must carry the keys `cloudflare` and `records`; unknown
top-level keys are ignored. -/
def parseConfig (y : Yaml) : Except ParseError Config :=
  match y with
  | Yaml.map entries =>
    (reqField entries "cloudflare").bind fun c =>
    (parseCloudflareConfig c).bind fun cf =>
    (reqField entries "records").bind fun r =>
    (match r with
     | Yaml.seq ys => parseRecordList ys
     | _ => Except.error ParseError.typeError).map fun recs =>
      { cloudflare := cf, records := recs }
  | _ => Except.error ParseError.typeError

/-- A whole-program failure, `src/main.rs` lines 194-247. -/
inductive AppError where
  | configRead
  | configParse (e : ParseError)
  | runFailure (e : RunError)
deriving DecidableEq, Repr

/-- `main`, `src/main.rs` lines 193-247: read the configuration document
(`none` models an unreadable file), parse it, then reconcile the declared
records; parse failures occur before any outbound call. -/
def mainRun (ora : Oracle) (configFile : Option Yaml) :
    List Call × Except AppError Unit :=
  match configFile with
  | none => ([], Except.error AppError.configRead)
  | some doc =>
    match parseConfig doc with
    | Except.error e => ([], Except.error (AppError.configParse e))
    | Except.ok config =>
      match run ora config.records with
      | (tr, Except.ok _) => (tr, Except.ok ())
      | (tr, Except.error e) => (tr, Except.error (AppError.runFailure e))

/-! ### Concrete fixtures (used to evaluate the theorems on closed inputs) -/

/-- Fixture: an A record spec, from scenario S1 of the specification. -/
def exSpecA : RecordConfig := { name := "home.example.net", record_type := "A" }

/-- Fixture: an AAAA record spec. -/
def exSpecA6 : RecordConfig := { name := "v6.example.net", record_type := "AAAA" }

/-- Fixture: a spec whose type is outside the recognized set. -/
def exSpecBad : RecordConfig := { name := "bad.example.net", record_type := "TXT" }

/-- Fixture: an IPv4-only probe transport answering `203.0.113.7` with
surrounding whitespace. -/
def exFetchA : String → Option String :=
  fun url => if url = "https://ipinfo.io/ip" then some " 203.0.113.7\r\n" else none

/-- Fixture: an IPv4-only probe transport answering a changed address. -/
def exFetchB : String → Option String :=
  fun url => if url = "https://ipinfo.io/ip" then some "203.0.113.9" else none

/-- Fixture: a zone with no records. -/
def exEmptyZone : PState := { records := [], nextId := 0 }

/-- Fixture: a provider record listed without an id. -/
def exRecordNoId : DnsRecord :=
  { id := none, name := "home.example.net", record_type := "A",
    content := "203.0.113.7", ttl := some 1, proxied := some false }

/-- Fixture: a zone whose only record carries no id. -/
def exZoneNoId : PState := { records := [exRecordNoId], nextId := 0 }

/-- Fixture: the record of scenario S1, with id `r1`. -/
def exRecordR1 : DnsRecord :=
  { id := some "r1", name := "home.example.net", record_type := "A",
    content := "203.0.113.7", ttl := some 1, proxied := some false }

/-- Fixture: a zone holding exactly the record of scenario S1. -/
def exZoneR1 : PState := { records := [exRecordR1], nextId := 0 }

/-- Fixture: a failed list envelope carrying an empty errors array. -/
def exListRespFailEmptyErrors : CloudflareResponse :=
  { success := false, result := some [], errors := some [] }

/-- Fixture: a failed list envelope with the errors field absent. -/
def exListRespFailNoErrors : CloudflareResponse :=
  { success := false, result := some [], errors := none }

/-- Fixture: a failed mutation envelope carrying one error, scenario S5. -/
def exSingleRespFail : SingleRecordResponse :=
  { success := false, result := none,
    errors := some [{ code := 9103, message := "Unauthorized" }] }

/-- Fixture: a failed mutation envelope with the errors field absent. -/
def exSingleRespFailNoErrors : SingleRecordResponse :=
  { success := false, result := some exRecordR1, errors := none }

/-! ### Basic replay lemmas -/

theorem applyCall_probe (s : PState) (u : String) : applyCall s (Call.probe u) = s := rfl

theorem applyCall_list (s : PState) (n t : String) : applyCall s (Call.list n t) = s := rfl

theorem replay_append (s : PState) (t1 t2 : List Call) :
    replay s (t1 ++ t2) = replay (replay s t1) t2 := by
  induction t1 generalizing s with
  | nil => rfl
  | cons c cs ih => simp [replay, ih]

theorem replay_probe (s : PState) (tr : List Call) (u : String) :
    replay s (tr ++ [Call.probe u]) = replay s tr := by
  rw [replay_append]; rfl

theorem replay_list (s : PState) (tr : List Call) (n t : String) :
    replay s (tr ++ [Call.list n t]) = replay s tr := by
  rw [replay_append]; rfl

theorem replay_create (s : PState) (tr : List Call) (n t c : String) :
    replay s (tr ++ [Call.create n t c]) = (create_record (replay s tr) n t c).1 := by
  rw [replay_append]; rfl

theorem replay_update (s : PState) (tr : List Call) (rid n t c : String) :
    replay s (tr ++ [Call.update rid n t c]) = update_record (replay s tr) rid c := by
  rw [replay_append]; rfl

/-! ### Characterizing one loop iteration -/

theorem get_public_ip_ok (fetch : String → Option String) (ty url body : String)
    (hu : ipUrl ty = some url) (hf : fetch url = some body)
    (ht : ¬ rustTrim body = "") :
    get_public_ip fetch ty = ([Call.probe url], Except.ok (rustTrim body)) := by
  simp [get_public_ip, hu, hf, ht]

theorem processSpec_cases (ora : Oracle) (tr : List Call) (spec : RecordConfig)
    (url body : String) (existing : List DnsRecord)
    (hu : ipUrl spec.record_type = some url)
    (hf : ora.fetch tr url = some body)
    (ht : ¬ rustTrim body = "")
    (hl : get_dns_records_decode
            (ora.listR (tr ++ [Call.probe url]) spec.name spec.record_type)
          = Except.ok existing) :
    processSpec ora tr spec =
      applyDecision ora (tr ++ [Call.probe url, Call.list spec.name spec.record_type])
        spec (rustTrim body) existing := by
  have h1 := get_public_ip_ok (ora.fetch tr) spec.record_type url body hu hf ht
  simp [processSpec, h1, hl]

theorem processSpec_badtype (ora : Oracle) (tr : List Call) (spec : RecordConfig)
    (hu : ipUrl spec.record_type = none) :
    processSpec ora tr spec = (tr, Except.error (RunError.unsupportedFamily spec.record_type)) := by
  simp [processSpec, get_public_ip, hu]

/-! ### One loop iteration against the honest environment -/

theorem honest_list_decode (s0 : PState) (fetch : String → Option String)
    (tr : List Call) (n t : String) :
    get_dns_records_decode ((honest s0 fetch).listR tr n t)
      = Except.ok (list_records (replay s0 tr) n t) := rfl

theorem honest_step_create (s0 : PState) (fetch : String → Option String)
    (tr : List Call) (spec : RecordConfig) (url body : String)
    (hu : ipUrl spec.record_type = some url) (hf : fetch url = some body)
    (ht : ¬ rustTrim body = "")
    (hempty : list_records (replay s0 tr) spec.name spec.record_type = []) :
    processSpec (honest s0 fetch) tr spec =
      (tr ++ [Call.probe url, Call.list spec.name spec.record_type,
              Call.create spec.name spec.record_type (rustTrim body)], Except.ok ()) := by
  rw [processSpec_cases (honest s0 fetch) tr spec url body [] hu hf ht
    (by rw [honest_list_decode, replay_probe, hempty])]
  simp [applyDecision, honest, mutate_dns_record_decode]

theorem honest_step_noop (s0 : PState) (fetch : String → Option String)
    (tr : List Call) (spec : RecordConfig) (url body : String) (ex : DnsRecord)
    (hu : ipUrl spec.record_type = some url) (hf : fetch url = some body)
    (ht : ¬ rustTrim body = "")
    (hhead : (list_records (replay s0 tr) spec.name spec.record_type).head? = some ex)
    (hcontent : ex.content = rustTrim body) :
    processSpec (honest s0 fetch) tr spec =
      (tr ++ [Call.probe url, Call.list spec.name spec.record_type], Except.ok ()) := by
  rw [processSpec_cases (honest s0 fetch) tr spec url body
    (list_records (replay s0 tr) spec.name spec.record_type) hu hf ht
    (by rw [honest_list_decode, replay_probe])]
  simp [applyDecision, hhead, hcontent]

theorem honest_step_update (s0 : PState) (fetch : String → Option String)
    (tr : List Call) (spec : RecordConfig) (url body rid : String) (ex : DnsRecord)
    (hu : ipUrl spec.record_type = some url) (hf : fetch url = some body)
    (ht : ¬ rustTrim body = "")
    (hhead : (list_records (replay s0 tr) spec.name spec.record_type).head? = some ex)
    (hcontent : ¬ ex.content = rustTrim body) (hid : ex.id = some rid) :
    processSpec (honest s0 fetch) tr spec =
      (tr ++ [Call.probe url, Call.list spec.name spec.record_type,
              Call.update rid spec.name spec.record_type (rustTrim body)], Except.ok ()) := by
  rw [processSpec_cases (honest s0 fetch) tr spec url body
    (list_records (replay s0 tr) spec.name spec.record_type) hu hf ht
    (by rw [honest_list_decode, replay_probe])]
  simp [applyDecision, hhead, hcontent, hid, honest, mutate_dns_record_decode]

theorem honest_step_panic (s0 : PState) (fetch : String → Option String)
    (tr : List Call) (spec : RecordConfig) (url body : String) (ex : DnsRecord)
    (hu : ipUrl spec.record_type = some url) (hf : fetch url = some body)
    (ht : ¬ rustTrim body = "")
    (hhead : (list_records (replay s0 tr) spec.name spec.record_type).head? = some ex)
    (hcontent : ¬ ex.content = rustTrim body) (hid : ex.id = none) :
    processSpec (honest s0 fetch) tr spec =
      (tr ++ [Call.probe url, Call.list spec.name spec.record_type],
       Except.error RunError.panicMissingId) := by
  rw [processSpec_cases (honest s0 fetch) tr spec url body
    (list_records (replay s0 tr) spec.name spec.record_type) hu hf ht
    (by rw [honest_list_decode, replay_probe])]
  simp [applyDecision, hhead, hcontent, hid]

/-! ### Sequencing lemmas for the loop -/

theorem runSpecs_append (ora : Oracle) (tr : List Call) (l1 l2 : List RecordConfig) :
    runSpecs ora tr (l1 ++ l2) =
      match runSpecs ora tr l1 with
      | (tr1, Except.ok _) => runSpecs ora tr1 l2
      | (tr1, Except.error e) => (tr1, Except.error e) := by
  induction l1 generalizing tr with
  | nil => rfl
  | cons spec rest ih =>
    simp only [List.cons_append, runSpecs]
    rcases h : processSpec ora tr spec with ⟨tr1, r⟩
    cases r with
    | ok _ => simpa using ih tr1
    | error e => simp

/-! ### Zone-state lemmas -/

theorem head?_mem {α : Type} {l : List α} {a : α} (h : l.head? = some a) : a ∈ l := by
  cases l with
  | nil => cases h
  | cons x xs =>
    rw [List.head?_cons, Option.some_inj] at h
    exact h ▸ List.mem_cons.mpr (Or.inl rfl)

theorem list_records_create_self (s : PState) (n t c : String) :
    list_records (create_record s n t c).1 n t =
      list_records s n t ++ [(create_record s n t c).2] := by
  simp [list_records, create_record, List.filter_append]

theorem list_records_create_other (s : PState) (n t c n2 t2 : String)
    (h : ¬ (n = n2 ∧ t = t2)) :
    list_records (create_record s n t c).1 n2 t2 = list_records s n2 t2 := by
  have hb : (n == n2 && t == t2) = false := by
    rcases Decidable.em (n = n2) with h1 | h1
    · subst h1
      have h2 : ¬ t = t2 := fun ht => h ⟨rfl, ht⟩
      simp [h2]
    · simp [h1]
  simp [list_records, create_record, List.filter_append, hb]

theorem list_records_update (s : PState) (rid c n t : String) :
    list_records (update_record s rid c) n t =
      (list_records s n t).map
        (fun r => if r.id == some rid then { r with content := c } else r) := by
  simp only [list_records, update_record]
  rw [List.filter_map]
  congr 1
  apply List.filter_congr
  intro r _
  by_cases h : r.id == some rid <;> simp [Function.comp, h]

theorem mem_list_records {s : PState} {n t : String} {r : DnsRecord}
    (h : r ∈ list_records s n t) : r ∈ s.records ∧ r.name = n ∧ r.record_type = t := by
  have := List.mem_filter.mp h
  refine ⟨this.1, ?_, ?_⟩
  · have hb := this.2
    simp only [Bool.and_eq_true, beq_iff_eq] at hb
    exact hb.1
  · have hb := this.2
    simp only [Bool.and_eq_true, beq_iff_eq] at hb
    exact hb.2

theorem nodup_filterMap_inj {α β : Type} (f : α → Option β) :
    ∀ (l : List α), (l.filterMap f).Nodup →
      ∀ a, a ∈ l → ∀ b, b ∈ l → ∀ i, f a = some i → f b = some i → a = b := by
  intro l
  induction l with
  | nil => intro _ a ha; exact absurd ha (List.not_mem_nil a)
  | cons x xs ih =>
    intro hnd a ha b hb i hfa hfb
    rcases List.mem_cons.mp ha with rfl | ha2
    · rcases List.mem_cons.mp hb with rfl | hb2
      · rfl
      · exfalso
        rw [List.filterMap_cons] at hnd
        rw [hfa] at hnd
        have hmem : i ∈ xs.filterMap f := List.mem_filterMap.mpr ⟨b, hb2, hfb⟩
        exact (List.nodup_cons.mp hnd).1 hmem
    · rcases List.mem_cons.mp hb with rfl | hb2
      · exfalso
        rw [List.filterMap_cons] at hnd
        rw [hfb] at hnd
        have hmem : i ∈ xs.filterMap f := List.mem_filterMap.mpr ⟨a, ha2, hfa⟩
        exact (List.nodup_cons.mp hnd).1 hmem
      · apply ih _ a ha2 b hb2 i hfa hfb
        rw [List.filterMap_cons] at hnd
        cases hfx : f x with
        | some y => rw [hfx] at hnd; exact (List.nodup_cons.mp hnd).2
        | none => rw [hfx] at hnd; exact hnd

theorem wf_id_unique {s : PState} (hwf : WF s) {r1 r2 : DnsRecord} {i : String}
    (h1 : r1 ∈ s.records) (h2 : r2 ∈ s.records)
    (hi1 : r1.id = some i) (hi2 : r2.id = some i) : r1 = r2 :=
  nodup_filterMap_inj _ s.records hwf.1 r1 h1 r2 h2 i hi1 hi2

theorem list_records_update_other (s : PState) (hwf : WF s)
    (rid c n t n2 t2 : String) (ex : DnsRecord)
    (hhead : (list_records s n t).head? = some ex) (hid : ex.id = some rid)
    (hne : ¬ (n = n2 ∧ t = t2)) :
    list_records (update_record s rid c) n2 t2 = list_records s n2 t2 := by
  rw [list_records_update]
  have hexmem := mem_list_records (head?_mem hhead)
  have hnone : ∀ r ∈ list_records s n2 t2, (r.id == some rid) = false := by
    intro r hr
    have hrmem := mem_list_records hr
    by_contra hcon
    have heq : r.id = some rid := by
      rcases hb : (r.id == some rid) with _ | _
      · exact absurd hb hcon
      · exact beq_iff_eq.mp hb
    have : r = ex := wf_id_unique hwf hrmem.1 hexmem.1 heq hid
    subst this
    exact hne ⟨hexmem.2.1 ▸ hrmem.2.1 ▸ rfl, hexmem.2.2 ▸ hrmem.2.2 ▸ rfl⟩
  calc (list_records s n2 t2).map
        (fun r => if r.id == some rid then { r with content := c } else r)
      = (list_records s n2 t2).map id := by
        apply List.map_congr_left
        intro r hr
        simp [hnone r hr]
    _ = list_records s n2 t2 := List.map_id _

theorem mkRecordId_all_r (n : Nat) :
    (mkRecordId n).data.all (fun c => c == 'r') = true := by
  rw [List.all_eq_true]
  intro c hc
  have : c = 'r' := List.eq_of_mem_replicate hc
  simp [this]

theorem mkRecordId_length (n : Nat) : (mkRecordId n).length = n + 1 := by
  simp [mkRecordId, String.length]

theorem mkRecordId_not_mem (s : PState) (hfresh : freshIds s = true) :
    mkRecordId s.nextId ∉ recordIds s := by
  intro hmem
  obtain ⟨r, hr, hid⟩ := List.mem_filterMap.mp hmem
  have hall := List.all_eq_true.mp hfresh r hr
  rw [hid] at hall
  rcases Bool.or_eq_true _ _ ▸ hall with hA | hB
  · rw [mkRecordId_all_r] at hA
    simp at hA
  · have := decide_eq_true_iff.mp hB
    rw [mkRecordId_length] at this
    omega

theorem WF_create (s : PState) (hwf : WF s) (n t c : String) :
    WF (create_record s n t c).1 := by
  obtain ⟨hnd, hfresh⟩ := hwf
  constructor
  · show ((s.records ++ [(create_record s n t c).2]).filterMap
      (fun r : DnsRecord => r.id)).Nodup
    rw [List.filterMap_append]
    rw [List.nodup_append]
    have hcid : (create_record s n t c).2.id = some (mkRecordId s.nextId) := rfl
    refine ⟨hnd, ?_, ?_⟩
    · simp [List.filterMap_cons, hcid]
    · have hx := mkRecordId_not_mem s hfresh
      simp only [List.filterMap_cons, List.filterMap_nil, hcid]
      rw [List.disjoint_singleton]
      exact hx
  · show freshIds _ = true
    rw [freshIds, List.all_eq_true]
    intro r hr
    rcases List.mem_append.mp hr with hr1 | hr2
    · have hall := List.all_eq_true.mp hfresh r hr1
      cases hid : r.id with
      | none => simp
      | some i =>
        rw [hid] at hall
        simp only [Bool.or_eq_true] at hall ⊢
        rcases hall with hA | hB
        · exact Or.inl hA
        · refine Or.inr ?_
          have := decide_eq_true_iff.mp hB
          rw [decide_eq_true_iff]
          simp only [create_record]
          omega
    · have : r = (create_record s n t c).2 := by
        simpa using hr2
      subst this
      simp only [create_record, Bool.or_eq_true]
      refine Or.inr ?_
    -- id is mkRecordId s.nextId, length s.nextId + 1 < s.nextId + 2
      rw [decide_eq_true_iff, mkRecordId_length]
      omega

theorem filterMap_id_map (l : List DnsRecord) (f : DnsRecord → DnsRecord)
    (h : ∀ r, (f r).id = r.id) :
    (l.map f).filterMap (fun r => r.id) = l.filterMap (fun r => r.id) := by
  induction l with
  | nil => rfl
  | cons x xs ih =>
    rw [List.map_cons, List.filterMap_cons, List.filterMap_cons, h]
    cases x.id <;> simp [ih]

theorem WF_update (s : PState) (hwf : WF s) (rid c : String) :
    WF (update_record s rid c) := by
  obtain ⟨hnd, hfresh⟩ := hwf
  have hpres : ∀ r : DnsRecord,
      ((fun r => if r.id == some rid then { r with content := c } else r) r).id = r.id := by
    intro r
    by_cases h : r.id == some rid <;> simp [h]
  constructor
  · show ((s.records.map
        (fun r => if r.id == some rid then { r with content := c } else r)).filterMap
      (fun r : DnsRecord => r.id)).Nodup
    rw [filterMap_id_map _ _ hpres]
    exact hnd
  · rw [freshIds, List.all_eq_true]
    intro r hr
    obtain ⟨r0, hr0, hfr⟩ := List.mem_map.mp hr
    have hall := List.all_eq_true.mp hfresh r0 hr0
    have hid : r.id = r0.id := by rw [← hfr]; exact hpres r0
    rw [hid]
    cases h0 : r0.id with
    | none => simp
    | some i =>
      rw [h0] at hall
      simpa [update_record] using hall

/-! ### Per-key reconciliation invariants -/

theorem replay_pl (s0 : PState) (tr : List Call) (u n t : String) :
    replay s0 (tr ++ [Call.probe u, Call.list n t]) = replay s0 tr := by
  rw [replay_append]; rfl

theorem replay_plc (s0 : PState) (tr : List Call) (u n t c : String) :
    replay s0 (tr ++ [Call.probe u, Call.list n t, Call.create n t c])
      = (create_record (replay s0 tr) n t c).1 := by
  rw [replay_append]; rfl

theorem replay_plu (s0 : PState) (tr : List Call) (u rid n t c : String) :
    replay s0 (tr ++ [Call.probe u, Call.list n t, Call.update rid n t c])
      = update_record (replay s0 tr) rid c := by
  rw [replay_append]; rfl

theorem processSpec_probe_transport (ora : Oracle) (tr : List Call) (spec : RecordConfig)
    (url : String) (hu : ipUrl spec.record_type = some url)
    (hf : ora.fetch tr url = none) :
    processSpec ora tr spec = (tr ++ [Call.probe url], Except.error RunError.probeTransport) := by
  simp [processSpec, get_public_ip, hu, hf]

theorem processSpec_probe_empty (ora : Oracle) (tr : List Call) (spec : RecordConfig)
    (url body : String) (hu : ipUrl spec.record_type = some url)
    (hf : ora.fetch tr url = some body) (ht : rustTrim body = "") :
    processSpec ora tr spec = (tr ++ [Call.probe url], Except.error RunError.emptyResponse) := by
  simp [processSpec, get_public_ip, hu, hf, ht]

theorem keyGoodB_intro (s : PState) (fetch : String → Option String) (spec : RecordConfig)
    (url body : String) (ex : DnsRecord)
    (hu : ipUrl spec.record_type = some url) (hf : fetch url = some body)
    (ht : ¬ rustTrim body = "")
    (hhead : (list_records s spec.name spec.record_type).head? = some ex)
    (hc : ex.content = rustTrim body) :
    keyGoodB s fetch spec = true := by
  simp [keyGoodB, hu, hf, ht, hhead, hc]

theorem keyGoodB_elim (s : PState) (fetch : String → Option String) (spec : RecordConfig)
    (h : keyGoodB s fetch spec = true) :
    ∃ url body ex, ipUrl spec.record_type = some url ∧ fetch url = some body ∧
      ¬ rustTrim body = "" ∧
      (list_records s spec.name spec.record_type).head? = some ex ∧
      ex.content = rustTrim body := by
  cases hu : ipUrl spec.record_type with
  | none => simp [keyGoodB, hu] at h
  | some url =>
    cases hf : fetch url with
    | none => simp [keyGoodB, hu, hf] at h
    | some body =>
      cases hhead : (list_records s spec.name spec.record_type).head? with
      | none => simp [keyGoodB, hu, hf, hhead] at h
      | some ex =>
        simp only [keyGoodB, hu, hf, hhead, Bool.and_eq_true, Bool.not_eq_true',
          beq_iff_eq, beq_eq_false_iff_ne, ne_eq] at h
        exact ⟨url, body, ex, rfl, hf, h.1, rfl, h.2⟩

theorem keyGoodB_state_congr (s s' : PState) (fetch : String → Option String)
    (spec : RecordConfig)
    (h : list_records s' spec.name spec.record_type
          = list_records s spec.name spec.record_type) :
    keyGoodB s' fetch spec = keyGoodB s fetch spec := by
  unfold keyGoodB
  rw [h]

theorem keyGoodB_congr_key (s : PState) (fetch : String → Option String)
    (spec spec2 : RecordConfig)
    (hn : spec2.name = spec.name) (htt : spec2.record_type = spec.record_type) :
    keyGoodB s fetch spec2 = keyGoodB s fetch spec := by
  unfold keyGoodB
  rw [hn, htt]

theorem specReadyB_elim (s : PState) (fetch : String → Option String) (spec : RecordConfig)
    (h : specReadyB s fetch spec = true) :
    ∃ url body ex rid, ipUrl spec.record_type = some url ∧ fetch url = some body ∧
      ¬ rustTrim body = "" ∧
      (list_records s spec.name spec.record_type).head? = some ex ∧
      ex.id = some rid ∧ ¬ ex.content = rustTrim body := by
  cases hu : ipUrl spec.record_type with
  | none => simp [specReadyB, hu] at h
  | some url =>
    cases hf : fetch url with
    | none => simp [specReadyB, hu, hf] at h
    | some body =>
      cases hhead : (list_records s spec.name spec.record_type).head? with
      | none => simp [specReadyB, hu, hf, hhead] at h
      | some ex =>
        simp only [specReadyB, hu, hf, hhead, Bool.and_eq_true, Bool.not_eq_true',
          beq_iff_eq, beq_eq_false_iff_ne, ne_eq, Option.isSome_iff_exists] at h
        obtain ⟨hne, ⟨rid, hrid⟩, hcne⟩ := h
        exact ⟨url, body, ex, rid, rfl, hf, hne, rfl, hrid, hcne⟩

theorem specReadyB_state_congr (s s' : PState) (fetch : String → Option String)
    (spec : RecordConfig)
    (h : list_records s' spec.name spec.record_type
          = list_records s spec.name spec.record_type) :
    specReadyB s' fetch spec = specReadyB s fetch spec := by
  unfold specReadyB
  rw [h]

theorem honest_step_inv (s0 : PState) (fetch : String → Option String)
    (tr tr1 : List Call) (spec : RecordConfig)
    (h : processSpec (honest s0 fetch) tr spec = (tr1, Except.ok ()))
    (hwf : WF (replay s0 tr)) :
    WF (replay s0 tr1) ∧ keyGoodB (replay s0 tr1) fetch spec = true ∧
      ∀ spec2 : RecordConfig, keyGoodB (replay s0 tr) fetch spec2 = true →
        keyGoodB (replay s0 tr1) fetch spec2 = true := by
  cases hu : ipUrl spec.record_type with
  | none =>
    rw [processSpec_badtype _ _ _ hu] at h
    exact absurd (congrArg Prod.snd h) (by simp)
  | some url =>
    cases hf : fetch url with
    | none =>
      rw [processSpec_probe_transport _ _ _ _ hu hf] at h
      exact absurd (congrArg Prod.snd h) (by simp)
    | some body =>
      by_cases ht : rustTrim body = ""
      · rw [processSpec_probe_empty _ _ _ _ _ hu hf ht] at h
        exact absurd (congrArg Prod.snd h) (by simp)
      · cases hhead : (list_records (replay s0 tr) spec.name spec.record_type).head? with
        | none =>
          have hempty : list_records (replay s0 tr) spec.name spec.record_type = [] := by
            cases hl : list_records (replay s0 tr) spec.name spec.record_type with
            | nil => rfl
            | cons a l => rw [hl] at hhead; cases hhead
          rw [honest_step_create s0 fetch tr spec url body hu hf ht hempty] at h
          have htr1 : tr1 = tr ++ [Call.probe url, Call.list spec.name spec.record_type,
              Call.create spec.name spec.record_type (rustTrim body)] :=
            (congrArg Prod.fst h).symm
          subst htr1
          rw [replay_plc]
          refine ⟨WF_create _ hwf _ _ _, ?_, ?_⟩
          · apply keyGoodB_intro _ fetch spec url body _ hu hf ht
            · rw [list_records_create_self, hempty]
              rfl
            · rfl
          · intro spec2 hkg
            obtain ⟨url2, body2, ex2, hu2, hf2, ht2, hhead2, hc2⟩ :=
              keyGoodB_elim _ _ _ hkg
            by_cases hkey : spec.name = spec2.name ∧ spec.record_type = spec2.record_type
            · exfalso
              rw [← hkey.1, ← hkey.2, hempty] at hhead2
              cases hhead2
            · rw [keyGoodB_state_congr (replay s0 tr)
                (create_record (replay s0 tr) spec.name spec.record_type (rustTrim body)).1
                fetch spec2 (list_records_create_other _ _ _ _ _ _ hkey)]
              exact hkg
        | some ex =>
          by_cases hc : ex.content = rustTrim body
          · rw [honest_step_noop s0 fetch tr spec url body ex hu hf ht hhead hc] at h
            have htr1 : tr1 = tr ++ [Call.probe url, Call.list spec.name spec.record_type] :=
              (congrArg Prod.fst h).symm
            subst htr1
            rw [replay_pl]
            exact ⟨hwf, keyGoodB_intro _ fetch spec url body ex hu hf ht hhead hc,
              fun spec2 hkg => hkg⟩
          · cases hid : ex.id with
            | none =>
              rw [honest_step_panic s0 fetch tr spec url body ex hu hf ht hhead hc hid] at h
              exact absurd (congrArg Prod.snd h) (by simp)
            | some rid =>
              rw [honest_step_update s0 fetch tr spec url body rid ex hu hf ht hhead hc hid] at h
              have htr1 : tr1 = tr ++ [Call.probe url, Call.list spec.name spec.record_type,
                  Call.update rid spec.name spec.record_type (rustTrim body)] :=
                (congrArg Prod.fst h).symm
              subst htr1
              rw [replay_plu]
              refine ⟨WF_update _ hwf _ _, ?_, ?_⟩
              · apply keyGoodB_intro _ fetch spec url body
                  { ex with content := rustTrim body } hu hf ht
                · rw [list_records_update, List.head?_map, hhead]
                  simp [hid]
                · rfl
              · intro spec2 hkg
                by_cases hkey : spec2.name = spec.name ∧ spec2.record_type = spec.record_type
                · rw [keyGoodB_congr_key _ fetch spec spec2 hkey.1 hkey.2]
                  apply keyGoodB_intro _ fetch spec url body
                    { ex with content := rustTrim body } hu hf ht
                  · rw [list_records_update, List.head?_map, hhead]
                    simp [hid]
                  · rfl
                · have hne : ¬ (spec.name = spec2.name ∧ spec.record_type = spec2.record_type) :=
                    fun hx => hkey ⟨hx.1.symm, hx.2.symm⟩
                  rw [keyGoodB_state_congr (replay s0 tr)
                    (update_record (replay s0 tr) rid (rustTrim body)) fetch spec2
                    (list_records_update_other _ hwf _ _ _ _ _ _ _ hhead hid hne)]
                  exact hkg

/-! ### Run-level lemmas -/

theorem mutCount_append (t1 t2 : List Call) :
    mutCount (t1 ++ t2) = mutCount t1 + mutCount t2 := by
  simp [mutCount, List.filter_append]

theorem updateCount_append (t1 t2 : List Call) :
    updateCount (t1 ++ t2) = updateCount t1 + updateCount t2 := by
  simp [updateCount, List.filter_append]

theorem createCount_append (t1 t2 : List Call) :
    createCount (t1 ++ t2) = createCount t1 + createCount t2 := by
  simp [createCount, List.filter_append]

theorem runSpecs_inv (s0 : PState) (fetch : String → Option String) :
    ∀ (specs : List RecordConfig) (tr tr1 : List Call),
      runSpecs (honest s0 fetch) tr specs = (tr1, Except.ok ()) →
      WF (replay s0 tr) →
      WF (replay s0 tr1) ∧
        (∀ spec ∈ specs, keyGoodB (replay s0 tr1) fetch spec = true) ∧
        (∀ spec2 : RecordConfig, keyGoodB (replay s0 tr) fetch spec2 = true →
          keyGoodB (replay s0 tr1) fetch spec2 = true) := by
  intro specs
  induction specs with
  | nil =>
    intro tr tr1 h hwf
    simp only [runSpecs] at h
    have heq : tr = tr1 := congrArg Prod.fst h
    subst heq
    exact ⟨hwf, by simp, fun spec2 hk => hk⟩
  | cons spec rest ih =>
    intro tr tr1 h hwf
    simp only [runSpecs] at h
    rcases hstep : processSpec (honest s0 fetch) tr spec with ⟨tra, r⟩
    rw [hstep] at h
    cases r with
    | error e => exact absurd (congrArg Prod.snd h) (by simp)
    | ok u =>
      cases u
      obtain ⟨hwfa, hkga, hpresa⟩ := honest_step_inv s0 fetch tr tra spec hstep hwf
      obtain ⟨hwf1, hkg1, hpres1⟩ := ih tra tr1 h hwfa
      refine ⟨hwf1, ?_, fun spec2 hk => hpres1 spec2 (hpresa spec2 hk)⟩
      intro sp hsp
      rcases List.mem_cons.mp hsp with rfl | hsp2
      · exact hpres1 sp hkga
      · exact hkg1 sp hsp2

theorem runSpecs_noop (s1 : PState) (fetch : String → Option String) :
    ∀ (specs : List RecordConfig) (tr : List Call),
      replay s1 tr = s1 →
      (∀ spec ∈ specs, keyGoodB s1 fetch spec = true) →
      (runSpecs (honest s1 fetch) tr specs).2 = Except.ok () ∧
      mutCount (runSpecs (honest s1 fetch) tr specs).1 = mutCount tr := by
  intro specs
  induction specs with
  | nil => intro tr htr hall; exact ⟨rfl, rfl⟩
  | cons spec rest ih =>
    intro tr htr hall
    obtain ⟨url, body, ex, hu, hf, hne, hhead, hc⟩ :=
      keyGoodB_elim s1 fetch spec (hall spec (by simp))
    have hstep := honest_step_noop s1 fetch tr spec url body ex hu hf hne
      (by rw [htr]; exact hhead) hc
    simp only [runSpecs, hstep]
    have htr2 : replay s1 (tr ++ [Call.probe url, Call.list spec.name spec.record_type]) = s1 := by
      rw [replay_pl, htr]
    obtain ⟨h1, h2⟩ := ih (tr ++ [Call.probe url, Call.list spec.name spec.record_type]) htr2
      (fun sp hsp => hall sp (by simp [hsp]))
    refine ⟨h1, ?_⟩
    rw [h2, mutCount_append]
    simp [mutCount, isMutating, List.filter]

theorem runSpecs_update_all (s1 : PState) (fetch2 : String → Option String) :
    ∀ (specs : List RecordConfig) (tr : List Call),
      WF (replay s1 tr) →
      specs.Pairwise (fun a b => ¬ (a.name = b.name ∧ a.record_type = b.record_type)) →
      (∀ spec ∈ specs, specReadyB (replay s1 tr) fetch2 spec = true) →
      (runSpecs (honest s1 fetch2) tr specs).2 = Except.ok () ∧
      updateCount (runSpecs (honest s1 fetch2) tr specs).1 = updateCount tr + specs.length ∧
      createCount (runSpecs (honest s1 fetch2) tr specs).1 = createCount tr := by
  intro specs
  induction specs with
  | nil => intro tr hwf hpw hall; exact ⟨rfl, by simp [runSpecs], rfl⟩
  | cons spec rest ih =>
    intro tr hwf hpw hall
    obtain ⟨url, body, ex, rid, hu, hf, hne, hhead, hid, hcne⟩ :=
      specReadyB_elim _ fetch2 spec (hall spec (by simp))
    have hstep := honest_step_update s1 fetch2 tr spec url body rid ex hu hf hne hhead hcne hid
    simp only [runSpecs, hstep]
    obtain ⟨hpw1, hpwrest⟩ := List.pairwise_cons.mp hpw
    have hs2 : replay s1 (tr ++ [Call.probe url, Call.list spec.name spec.record_type,
        Call.update rid spec.name spec.record_type (rustTrim body)])
        = update_record (replay s1 tr) rid (rustTrim body) := replay_plu s1 tr _ _ _ _ _
    have hwf2 : WF (replay s1 (tr ++ [Call.probe url, Call.list spec.name spec.record_type,
        Call.update rid spec.name spec.record_type (rustTrim body)])) := by
      rw [hs2]; exact WF_update _ hwf _ _
    have hall2 : ∀ sp ∈ rest, specReadyB (replay s1 (tr ++ [Call.probe url,
        Call.list spec.name spec.record_type,
        Call.update rid spec.name spec.record_type (rustTrim body)])) fetch2 sp = true := by
      intro sp hsp
      rw [hs2]
      rw [specReadyB_state_congr (replay s1 tr) (update_record (replay s1 tr) rid (rustTrim body))
        fetch2 sp (list_records_update_other _ hwf _ _ _ _ _ _ _ hhead hid (hpw1 sp hsp))]
      exact hall sp (by simp [hsp])
    obtain ⟨h1, h2, h3⟩ := ih (tr ++ [Call.probe url, Call.list spec.name spec.record_type,
      Call.update rid spec.name spec.record_type (rustTrim body)]) hwf2 hpwrest hall2
    refine ⟨h1, ?_, ?_⟩
    · rw [h2, updateCount_append]
      simp only [List.length_cons]
      have : updateCount [Call.probe url, Call.list spec.name spec.record_type,
          Call.update rid spec.name spec.record_type (rustTrim body)] = 1 := by
        simp [updateCount, isUpdate, List.filter]
      omega
    · rw [h3, createCount_append]
      have : createCount [Call.probe url, Call.list spec.name spec.record_type,
          Call.update rid spec.name spec.record_type (rustTrim body)] = 0 := by
        simp [createCount, isCreate, List.filter]
      omega

/-! ### Trim and configuration helper lemmas -/

theorem rustTrim_cons_ws (l : List Char) (c : Char) (hc : rustIsWhitespace c = true) :
    rustTrim (String.mk (c :: l)) = rustTrim (String.mk l) := by
  unfold rustTrim
  simp [List.dropWhile_cons, hc]

theorem rustTrim_append_ws (l : List Char) (c : Char) (hc : rustIsWhitespace c = true) :
    rustTrim (String.mk (l ++ [c])) = rustTrim (String.mk l) := by
  unfold rustTrim
  show String.mk ((List.dropWhile rustIsWhitespace
    (l ++ [c])).reverse.dropWhile rustIsWhitespace).reverse = _
  rw [List.dropWhile_append]
  by_cases he : (List.dropWhile rustIsWhitespace l).isEmpty
  · rw [if_pos he]
    rw [List.isEmpty_iff] at he
    rw [he]
    simp [List.dropWhile_cons, hc]
  · rw [if_neg he]
    rw [List.reverse_append]
    simp [List.dropWhile_cons, hc]

theorem getField_append_unknown (entries : List (String × Yaml)) (k k2 : String) (v : Yaml)
    (hne : ¬ k = k2) :
    getField (entries ++ [(k, v)]) k2 = getField entries k2 := by
  unfold getField
  rw [List.find?_append]
  cases h : entries.find? (fun e => e.1 == k2) with
  | some _ => simp [h]
  | none => simp [h, hne]

/-! ### The claims -/

/-- C2 counterexample: an envelope with `success == false` whose `errors`
field is absent is treated as a successful reply — the listing path returns
the result (or empty) and the mutation path returns the result — instead of
failing with the provider error. -/
theorem provider_error_envelope_counterexample :
    exListRespFailNoErrors.success = false ∧ exListRespFailNoErrors.errors = none ∧
    get_dns_records_decode exListRespFailNoErrors = Except.ok [] ∧
    exSingleRespFailNoErrors.success = false ∧ exSingleRespFailNoErrors.errors = none ∧
    mutate_dns_record_decode exSingleRespFailNoErrors = Except.ok exRecordR1 :=
  ⟨rfl, rfl, rfl, rfl, rfl, rfl⟩

/-- C2 (amended): whenever a decoded envelope has `success == false` and its
`errors` field is present, every operation fails with the provider error
carrying the decoded errors array (an empty array is permitted); but when
`success == false` and `errors` is absent, the reply is processed as if it
were successful (the listing returns `result` or the empty sequence, a
mutation returns `result` or fails with the missing-result error). -/
theorem provider_error_envelope (r : CloudflareResponse) (sr : SingleRecordResponse)
    (es es2 : List ApiError)
    (hr : r.success = false) (hs : sr.success = false) :
    (r.errors = some es →
      get_dns_records_decode r = Except.error (RunError.apiErrors es)) ∧
    (sr.errors = some es2 →
      mutate_dns_record_decode sr = Except.error (RunError.apiErrors es2)) ∧
    (r.errors = none → get_dns_records_decode r = Except.ok (r.result.getD [])) ∧
    (sr.errors = none → mutate_dns_record_decode sr
      = match sr.result with
        | some res => Except.ok res
        | none => Except.error RunError.noResult) := by
  refine ⟨fun he => ?_, fun he => ?_, fun he => ?_, fun he => ?_⟩ <;>
    simp [get_dns_records_decode, mutate_dns_record_decode, hr, hs, he]

theorem provider_error_envelope_witness :
    (exListRespFailEmptyErrors.success = false ∧ exSingleRespFail.success = false) ∧
    ((exListRespFailEmptyErrors.errors = some [] →
      get_dns_records_decode exListRespFailEmptyErrors
        = Except.error (RunError.apiErrors [])) ∧
     (exSingleRespFail.errors = some [{ code := 9103, message := "Unauthorized" }] →
      mutate_dns_record_decode exSingleRespFail
        = Except.error (RunError.apiErrors [{ code := 9103, message := "Unauthorized" }])) ∧
     (exListRespFailEmptyErrors.errors = none →
      get_dns_records_decode exListRespFailEmptyErrors
        = Except.ok (exListRespFailEmptyErrors.result.getD [])) ∧
     (exSingleRespFail.errors = none →
      mutate_dns_record_decode exSingleRespFail
        = match exSingleRespFail.result with
          | some res => Except.ok res
          | none => Except.error RunError.noResult)) :=
  ⟨⟨rfl, rfl⟩,
    provider_error_envelope exListRespFailEmptyErrors exSingleRespFail
      [] [{ code := 9103, message := "Unauthorized" }] rfl rfl⟩

/-- C3 counterexample: a document whose top-level mapping uses the key
`provider` (holding `api_token` and `zone_id`) together with `records` does
not load — deserialization fails reporting the missing field `cloudflare`. -/
theorem config_provider_key_counterexample :
    parseConfig (Yaml.map
      [("provider", Yaml.map [("api_token", Yaml.str "tok"), ("zone_id", Yaml.str "z1")]),
       ("records", Yaml.seq [])])
      = Except.error (ParseError.missingField "cloudflare") := rfl

/-- C3 (amended): the required top-level key is `cloudflare` (not
`provider`): a document with `cloudflare` (holding `api_token` and `zone_id`)
and `records` loads; unknown top-level keys are ignored; a document missing a
required key fails with a parse error; and a document that fails to parse
stops the program before any reconciliation step (no outbound call). -/
theorem config_loading (ora : Oracle) (tok zid : String) (rs : List Yaml)
    (recs : List RecordConfig) (entries : List (String × Yaml)) (k : String) (v : Yaml)
    (doc : Yaml) (e : ParseError)
    (hrs : parseRecordList rs = Except.ok recs)
    (hk1 : ¬ k = "cloudflare") (hk2 : ¬ k = "records") :
    (parseConfig (Yaml.map
        [("cloudflare", Yaml.map [("api_token", Yaml.str tok), ("zone_id", Yaml.str zid)]),
         ("records", Yaml.seq rs)])
      = Except.ok { cloudflare := { api_token := tok, zone_id := zid }, records := recs }) ∧
    (parseConfig (Yaml.map (entries ++ [(k, v)])) = parseConfig (Yaml.map entries)) ∧
    (getField entries "cloudflare" = none →
      parseConfig (Yaml.map entries) = Except.error (ParseError.missingField "cloudflare")) ∧
    (parseConfig doc = Except.error e →
      mainRun ora (some doc) = ([], Except.error (AppError.configParse e))) := by
  refine ⟨?_, ?_, fun hmiss => ?_, fun hpe => ?_⟩
  · simp [parseConfig, reqField, getField, parseCloudflareConfig, asString, hrs,
      Except.bind, Except.map, List.find?]
  · have h1 : reqField (entries ++ [(k, v)]) "cloudflare" = reqField entries "cloudflare" := by
      unfold reqField
      rw [getField_append_unknown entries k "cloudflare" v hk1]
    have h2 : reqField (entries ++ [(k, v)]) "records" = reqField entries "records" := by
      unfold reqField
      rw [getField_append_unknown entries k "records" v hk2]
    simp only [parseConfig, h1, h2]
  · simp [parseConfig, reqField, hmiss, Except.bind]
  · simp [mainRun, hpe]

theorem config_loading_witness :
    (parseRecordList [Yaml.map [("name", Yaml.str "home.example.net"), ("type", Yaml.str "A")]]
        = Except.ok [exSpecA] ∧
     ¬ "extra" = "cloudflare" ∧ ¬ "extra" = "records") ∧
    ((parseConfig (Yaml.map
        [("cloudflare", Yaml.map [("api_token", Yaml.str "tok"), ("zone_id", Yaml.str "z1")]),
         ("records", Yaml.seq
           [Yaml.map [("name", Yaml.str "home.example.net"), ("type", Yaml.str "A")]])])
      = Except.ok { cloudflare := { api_token := "tok", zone_id := "z1" },
                    records := [exSpecA] }) ∧
     (parseConfig (Yaml.map ([] ++ [("extra", Yaml.str "x")]))
        = parseConfig (Yaml.map [])) ∧
     (getField [] "cloudflare" = none →
       parseConfig (Yaml.map []) = Except.error (ParseError.missingField "cloudflare")) ∧
     (parseConfig (Yaml.str "nope") = Except.error ParseError.typeError →
       mainRun (honest exEmptyZone exFetchA) (some (Yaml.str "nope"))
         = ([], Except.error (AppError.configParse ParseError.typeError)))) :=
  ⟨⟨rfl, by decide, by decide⟩,
    config_loading (honest exEmptyZone exFetchA) "tok" "z1"
      [Yaml.map [("name", Yaml.str "home.example.net"), ("type", Yaml.str "A")]]
      [exSpecA] [] "extra" (Yaml.str "x") (Yaml.str "nope") ParseError.typeError
      rfl (by decide) (by decide)⟩

/-- C4 counterexample: the serialized request body does contain the `id`
field (with value JSON `null`): serde serializes the `None` id as `null`
rather than omitting it, so the body does not consist of exactly the five
fields the claim lists. -/
theorem request_body_id_counterexample :
    (serializeDnsRecord (create_request_body "home.example.net" "A" "203.0.113.9")).map
        Prod.fst
      = ["id", "name", "type", "content", "ttl", "proxied"] ∧
    ("id", Json.null) ∈ serializeDnsRecord
        (update_request_body "home.example.net" "A" "203.0.113.9") :=
  ⟨rfl, by decide⟩

/-- C4 (amended): every create and update request body is a JSON object with
exactly the fields id (serialized as JSON `null`), name, type, content, ttl
with value 1, and proxied with value false; the create and update bodies are
identical. -/
theorem request_body_serialization (name record_type content : String) :
    serializeDnsRecord (create_request_body name record_type content)
      = [("id", Json.null), ("name", Json.str name), ("type", Json.str record_type),
         ("content", Json.str content), ("ttl", Json.num 1), ("proxied", Json.bool false)] ∧
    update_request_body name record_type content
      = create_request_body name record_type content :=
  ⟨rfl, rfl⟩

/-- C7: the probe returns the response body with surrounding whitespace
stripped; a family outside {A, AAAA} fails unsupported with no HTTP request
issued; and (for a recognized family whose transport succeeds) it fails with
the empty-response error exactly when the trimmed body is empty.  The last
conjuncts exhibit the trimming: a leading or trailing `White_Space` character
(such as the newline) never changes the result. -/
theorem probe_trims_and_errors (fetch : String → Option String)
    (ip_type url body : String) (l : List Char) (c : Char) :
    (¬ ip_type = "A" → ¬ ip_type = "AAAA" →
      get_public_ip fetch ip_type = ([], Except.error (RunError.unsupportedFamily ip_type))) ∧
    (ipUrl ip_type = some url → fetch url = some body →
      ((get_public_ip fetch ip_type).2 = Except.error RunError.emptyResponse ↔
        rustTrim body = "") ∧
      (¬ rustTrim body = "" →
        get_public_ip fetch ip_type = ([Call.probe url], Except.ok (rustTrim body)))) ∧
    (rustIsWhitespace c = true →
      rustTrim (String.mk (c :: l)) = rustTrim (String.mk l) ∧
      rustTrim (String.mk (l ++ [c])) = rustTrim (String.mk l)) ∧
    rustIsWhitespace '\n' = true := by
  refine ⟨fun h1 h2 => ?_, fun hu hf => ⟨?_, fun hne => ?_⟩,
    fun hc => ⟨rustTrim_cons_ws l c hc, rustTrim_append_ws l c hc⟩, by decide⟩
  · simp [get_public_ip, ipUrl, h1, h2]
  · by_cases htr : rustTrim body = "" <;> simp [get_public_ip, hu, hf, htr]
  · simp [get_public_ip, hu, hf, hne]

theorem probe_trims_and_errors_witness :
    ((get_public_ip exFetchA "A").2 = Except.error RunError.emptyResponse ↔
        rustTrim " 203.0.113.7\r\n" = "") ∧
    (¬ rustTrim " 203.0.113.7\r\n" = "" →
      get_public_ip exFetchA "A"
        = ([Call.probe "https://ipinfo.io/ip"], Except.ok (rustTrim " 203.0.113.7\r\n"))) ∧
    (rustIsWhitespace '\n' = true →
      rustTrim (String.mk ('\n' :: ['a'])) = rustTrim (String.mk ['a']) ∧
      rustTrim (String.mk (['a'] ++ ['\n'])) = rustTrim (String.mk ['a'])) ∧
    get_public_ip exFetchA "TXT" = ([], Except.error (RunError.unsupportedFamily "TXT")) ∧
    rustTrim " 203.0.113.7\r\n" = "203.0.113.7" :=
  ⟨((probe_trims_and_errors exFetchA "A" "https://ipinfo.io/ip" " 203.0.113.7\r\n"
      ['a'] '\n').2.1 (by decide) (by decide)).1,
   ((probe_trims_and_errors exFetchA "A" "https://ipinfo.io/ip" " 203.0.113.7\r\n"
      ['a'] '\n').2.1 (by decide) (by decide)).2,
   (probe_trims_and_errors exFetchA "A" "https://ipinfo.io/ip" " 203.0.113.7\r\n"
      ['a'] '\n').2.2.1,
   (probe_trims_and_errors exFetchA "TXT" "https://ipinfo.io/ip" " 203.0.113.7\r\n"
      ['a'] '\n').1 (by decide) (by decide),
   by decide⟩

/-- C1: for every RecordSpec whose probe and listing succeed, the reconciler
follows the decision table exactly: an empty listing leads to one
create(spec.name, spec.type, observed) call; a first record whose content
equals the observed IP leads to no mutating call; a first record with
different content carrying id `rid` leads to one update(rid, spec.name,
spec.type, observed) call; and the decision step treats the listing exactly
as it treats its first element alone — records beyond index 0 never
influence it. -/
theorem reconciler_decision_table (ora : Oracle) (tr : List Call) (spec : RecordConfig)
    (url body rid : String) (existing : List DnsRecord)
    (hu : ipUrl spec.record_type = some url)
    (hf : ora.fetch tr url = some body)
    (ht : ¬ rustTrim body = "")
    (hl : get_dns_records_decode
        (ora.listR (tr ++ [Call.probe url]) spec.name spec.record_type)
      = Except.ok existing) :
    (existing = [] →
      (processSpec ora tr spec).1
        = tr ++ [Call.probe url, Call.list spec.name spec.record_type,
                 Call.create spec.name spec.record_type (rustTrim body)]) ∧
    (existing.head?.map DnsRecord.content = some (rustTrim body) →
      processSpec ora tr spec
        = (tr ++ [Call.probe url, Call.list spec.name spec.record_type], Except.ok ())) ∧
    (¬ existing = [] → ¬ existing.head?.map DnsRecord.content = some (rustTrim body) →
      existing.head?.bind DnsRecord.id = some rid →
      (processSpec ora tr spec).1
        = tr ++ [Call.probe url, Call.list spec.name spec.record_type,
                 Call.update rid spec.name spec.record_type (rustTrim body)]) ∧
    applyDecision ora (tr ++ [Call.probe url, Call.list spec.name spec.record_type]) spec
        (rustTrim body) existing
      = applyDecision ora (tr ++ [Call.probe url, Call.list spec.name spec.record_type]) spec
        (rustTrim body) (existing.take 1) := by
  have hP := processSpec_cases ora tr spec url body existing hu hf ht hl
  cases existing with
  | nil =>
    refine ⟨fun _ => ?_, fun hcon => absurd hcon (by simp), fun hne => absurd rfl hne, rfl⟩
    rw [hP]
    cases hmd : mutate_dns_record_decode (ora.createR
        (tr ++ [Call.probe url, Call.list spec.name spec.record_type])
        spec.name spec.record_type (rustTrim body)) with
    | ok v => simp [applyDecision, hmd]
    | error e => simp [applyDecision, hmd]
  | cons ex rest =>
    refine ⟨fun hh => absurd hh (by simp), fun hcon => ?_, fun _ hncon hid => ?_, rfl⟩
    · have hce : ex.content = rustTrim body := by simpa using hcon
      rw [hP]
      simp [applyDecision, hce]
    · have hce : ¬ ex.content = rustTrim body := by simpa using hncon
      have hide : ex.id = some rid := by simpa using hid
      rw [hP]
      cases hmd : mutate_dns_record_decode (ora.updateR
          (tr ++ [Call.probe url, Call.list spec.name spec.record_type]) rid
          spec.name spec.record_type (rustTrim body)) with
      | ok v => simp [applyDecision, hce, hide, hmd]
      | error e => simp [applyDecision, hce, hide, hmd]

theorem reconciler_decision_table_witness :
    (ipUrl exSpecA.record_type = some "https://ipinfo.io/ip" ∧
     (honest exZoneR1 exFetchB).fetch [] "https://ipinfo.io/ip" = some "203.0.113.9" ∧
     ¬ rustTrim "203.0.113.9" = "" ∧
     get_dns_records_decode ((honest exZoneR1 exFetchB).listR
         ([] ++ [Call.probe "https://ipinfo.io/ip"]) exSpecA.name exSpecA.record_type)
       = Except.ok [exRecordR1]) ∧
    (([exRecordR1] : List DnsRecord) = [] →
      (processSpec (honest exZoneR1 exFetchB) [] exSpecA).1
        = [] ++ [Call.probe "https://ipinfo.io/ip",
                 Call.list exSpecA.name exSpecA.record_type,
                 Call.create exSpecA.name exSpecA.record_type (rustTrim "203.0.113.9")]) ∧
    ([exRecordR1].head?.map DnsRecord.content = some (rustTrim "203.0.113.9") →
      processSpec (honest exZoneR1 exFetchB) [] exSpecA
        = ([] ++ [Call.probe "https://ipinfo.io/ip",
                  Call.list exSpecA.name exSpecA.record_type], Except.ok ())) ∧
    (¬ ([exRecordR1] : List DnsRecord) = [] →
      ¬ [exRecordR1].head?.map DnsRecord.content = some (rustTrim "203.0.113.9") →
      [exRecordR1].head?.bind DnsRecord.id = some "r1" →
      (processSpec (honest exZoneR1 exFetchB) [] exSpecA).1
        = [] ++ [Call.probe "https://ipinfo.io/ip",
                 Call.list exSpecA.name exSpecA.record_type,
                 Call.update "r1" exSpecA.name exSpecA.record_type (rustTrim "203.0.113.9")]) ∧
    applyDecision (honest exZoneR1 exFetchB)
        ([] ++ [Call.probe "https://ipinfo.io/ip", Call.list exSpecA.name exSpecA.record_type])
        exSpecA (rustTrim "203.0.113.9") [exRecordR1]
      = applyDecision (honest exZoneR1 exFetchB)
        ([] ++ [Call.probe "https://ipinfo.io/ip", Call.list exSpecA.name exSpecA.record_type])
        exSpecA (rustTrim "203.0.113.9") ([exRecordR1].take 1) :=
  ⟨⟨by decide, rfl, by decide, rfl⟩,
    reconciler_decision_table (honest exZoneR1 exFetchB) [] exSpecA
      "https://ipinfo.io/ip" "203.0.113.9" "r1" [exRecordR1]
      (by decide) rfl (by decide) rfl⟩

/-- C5 counterexample: the first listed record carries no id, yet the run
does not fail at all — its content equals the observed IP, so the reconciler
reports it up to date and the run succeeds; no MissingRecordId error value
exists in the program. -/
theorem missing_id_counterexample :
    exRecordNoId.id = none ∧
    (list_records exZoneNoId exSpecA.name exSpecA.record_type).head? = some exRecordNoId ∧
    processSpec (honest exZoneNoId exFetchA) [] exSpecA
      = ([Call.probe "https://ipinfo.io/ip", Call.list "home.example.net" "A"],
         Except.ok ()) ∧
    runSpecs (honest exZoneNoId exFetchA) [] [exSpecA]
      = ([Call.probe "https://ipinfo.io/ip", Call.list "home.example.net" "A"],
         Except.ok ()) :=
  ⟨rfl, rfl, rfl, rfl⟩

/-- C5 (amended): when the first listed record carries no id, the outcome
depends on its content: if the content differs from the observed IP the
program panics on the id unwrap (a process abort, modelled as
`panicMissingId`, not a recoverable MissingRecordId error) and issues no
mutating call for that spec; if the content equals the observed IP no failure
occurs at all. -/
theorem missing_id_update_path (ora : Oracle) (tr : List Call) (spec : RecordConfig)
    (url body : String) (ex : DnsRecord) (rest : List DnsRecord)
    (hu : ipUrl spec.record_type = some url)
    (hf : ora.fetch tr url = some body)
    (ht : ¬ rustTrim body = "")
    (hl : get_dns_records_decode
        (ora.listR (tr ++ [Call.probe url]) spec.name spec.record_type)
      = Except.ok (ex :: rest))
    (hid : ex.id = none) :
    (¬ ex.content = rustTrim body →
      processSpec ora tr spec
        = (tr ++ [Call.probe url, Call.list spec.name spec.record_type],
           Except.error RunError.panicMissingId)) ∧
    (ex.content = rustTrim body →
      processSpec ora tr spec
        = (tr ++ [Call.probe url, Call.list spec.name spec.record_type], Except.ok ())) := by
  have hP := processSpec_cases ora tr spec url body (ex :: rest) hu hf ht hl
  constructor
  · intro hcne
    rw [hP]
    simp [applyDecision, hcne, hid]
  · intro hce
    rw [hP]
    simp [applyDecision, hce]

theorem missing_id_update_path_witness :
    (ipUrl exSpecA.record_type = some "https://ipinfo.io/ip" ∧
     (honest exZoneNoId exFetchB).fetch [] "https://ipinfo.io/ip" = some "203.0.113.9" ∧
     ¬ rustTrim "203.0.113.9" = "" ∧
     get_dns_records_decode ((honest exZoneNoId exFetchB).listR
         ([] ++ [Call.probe "https://ipinfo.io/ip"]) exSpecA.name exSpecA.record_type)
       = Except.ok [exRecordNoId] ∧
     exRecordNoId.id = none) ∧
    ((¬ exRecordNoId.content = rustTrim "203.0.113.9" →
      processSpec (honest exZoneNoId exFetchB) [] exSpecA
        = ([] ++ [Call.probe "https://ipinfo.io/ip",
                  Call.list exSpecA.name exSpecA.record_type],
           Except.error RunError.panicMissingId)) ∧
     (exRecordNoId.content = rustTrim "203.0.113.9" →
      processSpec (honest exZoneNoId exFetchB) [] exSpecA
        = ([] ++ [Call.probe "https://ipinfo.io/ip",
                  Call.list exSpecA.name exSpecA.record_type], Except.ok ()))) :=
  ⟨⟨by decide, rfl, by decide, rfl, rfl⟩,
    missing_id_update_path (honest exZoneNoId exFetchB) [] exSpecA
      "https://ipinfo.io/ip" "203.0.113.9" exRecordNoId []
      (by decide) rfl (by decide) rfl rfl⟩

/-- C10: the id of the first listed record is inspected only on the update
path: when its content equals the observed IP the reconciler issues no
mutating call, reports success for that spec and the loop continues with the
remaining specs even though the record carries no id; a missing id can only
cause a failure (the unwrap panic) when the contents differ. -/
theorem up_to_date_skips_id_check (ora : Oracle) (tr : List Call) (spec : RecordConfig)
    (more : List RecordConfig) (url body : String) (ex : DnsRecord) (rest : List DnsRecord)
    (hu : ipUrl spec.record_type = some url)
    (hf : ora.fetch tr url = some body)
    (ht : ¬ rustTrim body = "")
    (hl : get_dns_records_decode
        (ora.listR (tr ++ [Call.probe url]) spec.name spec.record_type)
      = Except.ok (ex :: rest))
    (hid : ex.id = none) :
    (ex.content = rustTrim body →
      processSpec ora tr spec
        = (tr ++ [Call.probe url, Call.list spec.name spec.record_type], Except.ok ()) ∧
      runSpecs ora tr (spec :: more)
        = runSpecs ora (tr ++ [Call.probe url, Call.list spec.name spec.record_type]) more) ∧
    (¬ ex.content = rustTrim body →
      (processSpec ora tr spec).2 = Except.error RunError.panicMissingId) := by
  have hP := processSpec_cases ora tr spec url body (ex :: rest) hu hf ht hl
  constructor
  · intro hce
    have hstep : processSpec ora tr spec
        = (tr ++ [Call.probe url, Call.list spec.name spec.record_type], Except.ok ()) := by
      rw [hP]
      simp [applyDecision, hce]
    exact ⟨hstep, by simp [runSpecs, hstep]⟩
  · intro hcne
    rw [hP]
    simp [applyDecision, hcne, hid]

theorem up_to_date_skips_id_check_witness :
    (ipUrl exSpecA.record_type = some "https://ipinfo.io/ip" ∧
     (honest exZoneNoId exFetchA).fetch [] "https://ipinfo.io/ip" = some " 203.0.113.7\r\n" ∧
     ¬ rustTrim " 203.0.113.7\r\n" = "" ∧
     get_dns_records_decode ((honest exZoneNoId exFetchA).listR
         ([] ++ [Call.probe "https://ipinfo.io/ip"]) exSpecA.name exSpecA.record_type)
       = Except.ok [exRecordNoId] ∧
     exRecordNoId.id = none) ∧
    ((exRecordNoId.content = rustTrim " 203.0.113.7\r\n" →
      processSpec (honest exZoneNoId exFetchA) [] exSpecA
        = ([] ++ [Call.probe "https://ipinfo.io/ip",
                  Call.list exSpecA.name exSpecA.record_type], Except.ok ()) ∧
      runSpecs (honest exZoneNoId exFetchA) [] (exSpecA :: [exSpecA])
        = runSpecs (honest exZoneNoId exFetchA)
            ([] ++ [Call.probe "https://ipinfo.io/ip",
                    Call.list exSpecA.name exSpecA.record_type]) [exSpecA]) ∧
     (¬ exRecordNoId.content = rustTrim " 203.0.113.7\r\n" →
      (processSpec (honest exZoneNoId exFetchA) [] exSpecA).2
        = Except.error RunError.panicMissingId)) :=
  ⟨⟨by decide, rfl, by decide, rfl, rfl⟩,
    up_to_date_skips_id_check (honest exZoneNoId exFetchA) [] exSpecA [exSpecA]
      "https://ipinfo.io/ip" " 203.0.113.7\r\n" exRecordNoId []
      (by decide) rfl (by decide) rfl rfl⟩

/-- C6 counterexample: a configuration declaring a valid A spec before a TXT
spec does fail, but only after the create for the first spec has already been
issued — a network mutation for an earlier spec does occur in the failing
run. -/
theorem invalid_type_counterexample :
    (run (honest exEmptyZone exFetchA) [exSpecA, exSpecBad]).2
      = Except.error (RunError.unsupportedFamily "TXT") ∧
    Call.create "home.example.net" "A" "203.0.113.7"
      ∈ (run (honest exEmptyZone exFetchA) [exSpecA, exSpecBad]).1 := by
  constructor
  · rfl
  · have h : (run (honest exEmptyZone exFetchA) [exSpecA, exSpecBad]).1
        = [Call.probe "https://ipinfo.io/ip", Call.list "home.example.net" "A",
           Call.create "home.example.net" "A" "203.0.113.7"] := rfl
    rw [h]
    simp

/-- C6 (amended): a configuration containing a RecordSpec whose type is
outside {A, AAAA} makes the run fail, and the invalid spec itself and every
spec after it cause no call at all (the family check bails before any request
for that spec); mutations for valid specs declared earlier may however
already have been performed by the time the run halts. -/
theorem invalid_type_halts (ora : Oracle) (tr tr1 : List Call) (e : RunError)
    (pre post : List RecordConfig) (spec : RecordConfig)
    (hbad : ipUrl spec.record_type = none) :
    (runSpecs ora tr pre = (tr1, Except.ok ()) →
      runSpecs ora tr (pre ++ spec :: post)
        = (tr1, Except.error (RunError.unsupportedFamily spec.record_type))) ∧
    (runSpecs ora tr pre = (tr1, Except.error e) →
      runSpecs ora tr (pre ++ spec :: post) = (tr1, Except.error e)) := by
  constructor
  · intro hpre
    rw [runSpecs_append, hpre]
    simp [runSpecs, processSpec_badtype ora tr1 spec hbad]
  · intro hpre
    rw [runSpecs_append, hpre]

theorem invalid_type_halts_witness :
    ipUrl exSpecBad.record_type = none ∧
    ((runSpecs (honest exEmptyZone exFetchA) [] [exSpecA]
        = ([Call.probe "https://ipinfo.io/ip", Call.list "home.example.net" "A",
            Call.create "home.example.net" "A" "203.0.113.7"], Except.ok ()) →
      runSpecs (honest exEmptyZone exFetchA) [] ([exSpecA] ++ exSpecBad :: [exSpecA6])
        = ([Call.probe "https://ipinfo.io/ip", Call.list "home.example.net" "A",
            Call.create "home.example.net" "A" "203.0.113.7"],
           Except.error (RunError.unsupportedFamily exSpecBad.record_type))) ∧
     (runSpecs (honest exEmptyZone exFetchA) [] [exSpecA]
        = ([Call.probe "https://ipinfo.io/ip", Call.list "home.example.net" "A",
            Call.create "home.example.net" "A" "203.0.113.7"],
           Except.error RunError.probeTransport) →
      runSpecs (honest exEmptyZone exFetchA) [] ([exSpecA] ++ exSpecBad :: [exSpecA6])
        = ([Call.probe "https://ipinfo.io/ip", Call.list "home.example.net" "A",
            Call.create "home.example.net" "A" "203.0.113.7"],
           Except.error RunError.probeTransport))) :=
  ⟨by decide,
    invalid_type_halts (honest exEmptyZone exFetchA) []
      [Call.probe "https://ipinfo.io/ip", Call.list "home.example.net" "A",
       Call.create "home.example.net" "A" "203.0.113.7"]
      RunError.probeTransport [exSpecA] [exSpecA6] exSpecBad (by decide)⟩

/-- C8: if processing of the k-th RecordSpec fails with any error, the run
halts there with that error: the final trace is exactly the trace accumulated
up to and including the failing spec, so no probe, list, create or update is
issued for any spec of higher index. -/
theorem ordered_halt (ora : Oracle) (tr tr1 tr2 : List Call) (e : RunError)
    (pre post : List RecordConfig) (spec : RecordConfig)
    (hpre : runSpecs ora tr pre = (tr1, Except.ok ()))
    (hfail : processSpec ora tr1 spec = (tr2, Except.error e)) :
    runSpecs ora tr (pre ++ spec :: post) = (tr2, Except.error e) := by
  rw [runSpecs_append, hpre]
  simp [runSpecs, hfail]

theorem ordered_halt_witness :
    runSpecs (honest exEmptyZone exFetchA) [] [exSpecA]
      = ([Call.probe "https://ipinfo.io/ip", Call.list "home.example.net" "A",
          Call.create "home.example.net" "A" "203.0.113.7"], Except.ok ()) ∧
    processSpec (honest exEmptyZone exFetchA)
        [Call.probe "https://ipinfo.io/ip", Call.list "home.example.net" "A",
         Call.create "home.example.net" "A" "203.0.113.7"] exSpecA6
      = ([Call.probe "https://ipinfo.io/ip", Call.list "home.example.net" "A",
          Call.create "home.example.net" "A" "203.0.113.7",
          Call.probe "https://ifconfig.me/ip"], Except.error RunError.probeTransport) ∧
    runSpecs (honest exEmptyZone exFetchA) [] ([exSpecA] ++ exSpecA6 :: [exSpecA])
      = ([Call.probe "https://ipinfo.io/ip", Call.list "home.example.net" "A",
          Call.create "home.example.net" "A" "203.0.113.7",
          Call.probe "https://ifconfig.me/ip"], Except.error RunError.probeTransport) :=
  ⟨rfl, rfl,
    ordered_halt (honest exEmptyZone exFetchA) []
      [Call.probe "https://ipinfo.io/ip", Call.list "home.example.net" "A",
       Call.create "home.example.net" "A" "203.0.113.7"]
      [Call.probe "https://ipinfo.io/ip", Call.list "home.example.net" "A",
       Call.create "home.example.net" "A" "203.0.113.7",
       Call.probe "https://ifconfig.me/ip"]
      RunError.probeTransport [exSpecA] [exSpecA] exSpecA6 rfl rfl⟩

/-- C9 counterexample: with two identical declared RecordSpecs over an empty
zone, the first run succeeds (one create, one no-op); after the public IP
changes, the re-reconciliation issues exactly one update in total — the first
spec updates the record, the second then finds it already up to date — not
one update per declared RecordSpec (which would be two). -/
theorem reconcile_duplicate_counterexample :
    (run (honest exEmptyZone exFetchA) [exSpecA, exSpecA]).2 = Except.ok () ∧
    ¬ exFetchB "https://ipinfo.io/ip" = exFetchA "https://ipinfo.io/ip" ∧
    (run (honest (replay exEmptyZone
        (run (honest exEmptyZone exFetchA) [exSpecA, exSpecA]).1) exFetchB)
      [exSpecA, exSpecA]).2 = Except.ok () ∧
    updateCount (run (honest (replay exEmptyZone
        (run (honest exEmptyZone exFetchA) [exSpecA, exSpecA]).1) exFetchB)
      [exSpecA, exSpecA]).1 = 1 ∧
    mutCount (run (honest (replay exEmptyZone
        (run (honest exEmptyZone exFetchA) [exSpecA, exSpecA]).1) exFetchB)
      [exSpecA, exSpecA]).1 = 1 ∧
    ([exSpecA, exSpecA] : List RecordConfig).length = 2 :=
  ⟨rfl, by decide, rfl, rfl, rfl, rfl⟩

/-- C9 (amended): reconciliation is idempotent: after a successful run from a
well-formed zone, running again with the same observed IPs and the resulting
provider state issues zero mutating calls; and after the observed IPs change,
one re-reconciliation succeeds issuing exactly one update and no create per
declared RecordSpec — provided the specs target pairwise distinct
(name, type) pairs and each spec's stored record then carries an id and a
content differing from the new observation.  (With duplicate (name, type)
specs only the first issues an update, and a stored record without an id
panics instead; see the counterexample.) -/
theorem reconcile_idempotent_update_once
    (s0 : PState) (fetch fetch2 : String → Option String) (specs : List RecordConfig)
    (hwf : WF s0)
    (hok : (run (honest s0 fetch) specs).2 = Except.ok ())
    (hdist : specs.Pairwise (fun a b => ¬ (a.name = b.name ∧ a.record_type = b.record_type)))
    (hready : ∀ spec ∈ specs,
      specReadyB (replay s0 (run (honest s0 fetch) specs).1) fetch2 spec = true) :
    mutCount (run (honest (replay s0 (run (honest s0 fetch) specs).1) fetch) specs).1 = 0 ∧
    (run (honest (replay s0 (run (honest s0 fetch) specs).1) fetch2) specs).2
      = Except.ok () ∧
    updateCount (run (honest (replay s0 (run (honest s0 fetch) specs).1) fetch2) specs).1
      = specs.length ∧
    createCount (run (honest (replay s0 (run (honest s0 fetch) specs).1) fetch2) specs).1
      = 0 := by
  have hpair : runSpecs (honest s0 fetch) [] specs
      = ((run (honest s0 fetch) specs).1, Except.ok ()) := by
    rw [← hok]
    exact Prod.mk.eta.symm
  obtain ⟨hwf1, hkg1, hpres1⟩ :=
    runSpecs_inv s0 fetch specs [] (run (honest s0 fetch) specs).1 hpair hwf
  obtain ⟨hok2, hmut⟩ :=
    runSpecs_noop (replay s0 (run (honest s0 fetch) specs).1) fetch specs [] rfl hkg1
  obtain ⟨hok3, hupd, hcre⟩ :=
    runSpecs_update_all (replay s0 (run (honest s0 fetch) specs).1) fetch2 specs []
      hwf1 hdist hready
  exact ⟨hmut, hok3, by simpa [run, updateCount] using hupd,
    by simpa [run, createCount] using hcre⟩

theorem reconcile_idempotent_update_once_witness :
    (WF exEmptyZone ∧
     (run (honest exEmptyZone exFetchA) [exSpecA]).2 = Except.ok () ∧
     ([exSpecA] : List RecordConfig).Pairwise
       (fun a b => ¬ (a.name = b.name ∧ a.record_type = b.record_type)) ∧
     (∀ spec ∈ ([exSpecA] : List RecordConfig),
       specReadyB (replay exEmptyZone (run (honest exEmptyZone exFetchA) [exSpecA]).1)
         exFetchB spec = true)) ∧
    (mutCount (run (honest (replay exEmptyZone
        (run (honest exEmptyZone exFetchA) [exSpecA]).1) exFetchA) [exSpecA]).1 = 0 ∧
     (run (honest (replay exEmptyZone
        (run (honest exEmptyZone exFetchA) [exSpecA]).1) exFetchB) [exSpecA]).2
       = Except.ok () ∧
     updateCount (run (honest (replay exEmptyZone
        (run (honest exEmptyZone exFetchA) [exSpecA]).1) exFetchB) [exSpecA]).1
       = ([exSpecA] : List RecordConfig).length ∧
     createCount (run (honest (replay exEmptyZone
        (run (honest exEmptyZone exFetchA) [exSpecA]).1) exFetchB) [exSpecA]).1 = 0) :=
  ⟨⟨⟨List.nodup_nil, rfl⟩, rfl, by simp, by decide⟩,
    reconcile_idempotent_update_once exEmptyZone exFetchA exFetchB [exSpecA]
      ⟨List.nodup_nil, rfl⟩ rfl (by simp) (by decide)⟩

end Ddns
